import Mathlib

/-!
# WindAction_SANS10160: wind actions after SANS 10160-3:2011

A shallow embedding of `WindAction_Library/WindActionLib.cpp` and the properties its
specification states about it.

Conventions of the embedding:

* `double` is an arbitrary field `F` (instantiated with `ℚ` or `ℝ`): arithmetic is exact, and
  rounding, NaN and the infinities of IEEE 754 are outside the model. The one place where the
  code divides by zero, the `default` label of `TerrainRoughness`, is embedded a second time
  over `Double F`, which adds a non-finite value to `F`.
* `std::log` and `pow` are parameters `log : F → F` and `pow : F → F → F` of the functions that
  call them; the theorems that need their meaning instantiate them with `Real.log` and
  `Real.rpow`, which agree with the C functions wherever those are finite.
* `unsigned int` is `Nat`, `int` is `Int` (signed overflow is undefined behaviour in C++ and
  is not modelled), `char` is `Char`.
* `throw std::invalid_argument(msg)` is `Except.error ⟨msg⟩`; a function without a `throw`
  of its own or of a callee is a plain function.
-/

namespace WindAction_library

/-- The exception `std::invalid_argument` with the message it was thrown with. -/
structure InvalidArgument where
  what : String
deriving DecidableEq, Repr

/-- Header, line 15: `static const int BASICWINDSPEED[] = { 28,32,36 };` -/
def BASICWINDSPEED : List Int := [28, 32, 36]

/-- Header, line 16: `static const char TERRAINCATEGORY[] = { 'A','B', 'C', 'D'};` -/
def TERRAINCATEGORY : List Char := ['A', 'B', 'C', 'D']

/-- Modelled from the spec: the table `TERRAINCATEGORIES` that `IsValidTerrainCategory` scans is
not declared in the header under src/ (which declares the table as `TERRAINCATEGORY`); it is the
enumerated set of category codes A, B, C, D of the spec. -/
def TERRAINCATEGORIES : List Char := TERRAINCATEGORY

/-- Modelled from the spec: the `case` label `TERRAINCATEGORY_A` is not declared under src/; it
is the category code A. -/
def TERRAINCATEGORY_A : Char := 'A'

/-- Modelled from the spec: the `case` label `TERRAINCATEGORY_B` is not declared under src/; it
is the category code B. -/
def TERRAINCATEGORY_B : Char := 'B'

/-- Modelled from the spec: the `case` label `TERRAINCATEGORY_C` is not declared under src/; it
is the category code C. -/
def TERRAINCATEGORY_C : Char := 'C'

/-- Modelled from the spec: the `case` label `TERRAINCATEGORY_D` is not declared under src/; it
is the category code D. -/
def TERRAINCATEGORY_D : Char := 'D'

namespace WindAction

/-- `std::find(std::begin(T), std::end(T), x) != std::end(T)`: the position of the first
element equal to `x` (the length of the table when there is none) is not the end. -/
def findExists {α : Type} [DecidableEq α] (table : List α) (x : α) : Bool :=
  table.indexOf x != table.length

/-- `WindAction::IsValidBasicWindSpeed` (WindActionLib.cpp, lines 52-63). -/
def IsValidBasicWindSpeed (_iFundamentalBasicWindSpeed : Int) : Except InvalidArgument Bool :=
  let bExists : Bool := findExists BASICWINDSPEED _iFundamentalBasicWindSpeed
  if !bExists then
    throw ⟨"received Invaild Basic Wind Speed value"⟩
  else
    pure bExists

/-- `WindAction::IsValidTerrainCategory` (WindActionLib.cpp, lines 69-80). -/
def IsValidTerrainCategory (_cTerrainCategory : Char) : Except InvalidArgument Bool :=
  let bExists : Bool := findExists TERRAINCATEGORIES _cTerrainCategory
  if !bExists then
    throw ⟨"received Invaild Terrain Category value"⟩
  else
    pure bExists

/-- `WindAction::AirDensity` (WindActionLib.cpp, lines 88-128). The parameter is unsigned, so
the first test is a comparison of naturals; the last `else` is the fall-through that leaves
`dReturn` at its initial `0.0`. -/
def AirDensity {F : Type} [Field F] (_iAltitude : Nat) : Except InvalidArgument F :=
  if _iAltitude < 0 then
    throw ⟨"received Invaild Altitude value"⟩
  else if _iAltitude = 0 then
    pure 1.20
  else if _iAltitude > 0 ∧ _iAltitude ≤ 500 then
    let dM_slope : F := (1.12 - 1.20) / ((500 - 0 : Int) : F)
    pure (dM_slope * (_iAltitude : F) + (1.20 - dM_slope * ((0 : Int) : F)))
  else if _iAltitude > 500 ∧ _iAltitude ≤ 1000 then
    let dM_slope : F := (1.06 - 1.12) / ((1000 - 500 : Int) : F)
    pure (dM_slope * (_iAltitude : F) + (1.12 - dM_slope * ((500 : Int) : F)))
  else if _iAltitude > 1000 ∧ _iAltitude ≤ 1500 then
    let dM_slope : F := (1.0 - 1.06) / ((1500 - 1000 : Int) : F)
    pure (dM_slope * (_iAltitude : F) + (1.06 - dM_slope * ((1000 : Int) : F)))
  else if _iAltitude > 1500 ∧ _iAltitude ≤ 2000 then
    let dM_slope : F := (0.94 - 1.0) / ((2000 - 1500 : Int) : F)
    pure (dM_slope * (_iAltitude : F) + (1.0 - dM_slope * ((1500 : Int) : F)))
  else if _iAltitude > 2000 then
    pure 0.94
  else
    pure 0.0

/-- `WindAction::BasicWindSpeed` (WindActionLib.cpp, lines 170-181). -/
def BasicWindSpeed {F : Type} [Field F] (log : F → F) (pow : F → F → F)
    (_iFundamentalBasicWindSpeed : Int) (_dProbabilityofExceedance : F) : F :=
  let dK : F := 0.2
  let dn : F := 0.5
  let dtemp : F :=
    (1 - dK * log (-1 * log (1 - _dProbabilityofExceedance))) /
      (1 - dK * log (-1 * log 0.98))
  let dCprob : F := pow dtemp dn
  dCprob * (_iFundamentalBasicWindSpeed : F)

/-- The locals `iZ0`, `iZg`, `iZc`, `dAExponent` of `WindAction::TerrainRoughness`. -/
structure TerrainConstants (F : Type) where
  iZ0 : Int
  iZg : Int
  iZc : Int
  dAExponent : F

/-- The `switch` of `WindAction::TerrainRoughness` (WindActionLib.cpp, lines 202-235): the
locals start at zero and the `default` label leaves them there. -/
def terrainSwitch {F : Type} [Field F] (_cTerrainCategory : Char) : TerrainConstants F :=
  if _cTerrainCategory = TERRAINCATEGORY_A then
    { iZ0 := 0, iZg := 250, iZc := 1, dAExponent := 0.070 }
  else if _cTerrainCategory = TERRAINCATEGORY_B then
    { iZ0 := 0, iZg := 300, iZc := 2, dAExponent := 0.095 }
  else if _cTerrainCategory = TERRAINCATEGORY_C then
    { iZ0 := 3, iZg := 350, iZc := 5, dAExponent := 0.120 }
  else if _cTerrainCategory = TERRAINCATEGORY_D then
    { iZ0 := 5, iZg := 400, iZc := 10, dAExponent := 0.150 }
  else
    { iZ0 := 0, iZg := 0, iZc := 0, dAExponent := 0.0 }

/-- `WindAction::TerrainRoughness` (WindActionLib.cpp, lines 198-241): both differences are
taken in `int` and then cast to `double`. -/
def TerrainRoughness {F : Type} [Field F] (pow : F → F → F)
    (_iHeight : Int) (_cTerrainCategory : Char) : F :=
  let k : TerrainConstants F := terrainSwitch _cTerrainCategory
  let dtemp : F := ((_iHeight - k.iZ0 : Int) : F) / ((k.iZg - k.iZc : Int) : F)
  1.36 * pow dtemp k.dAExponent

/-- `WindAction::PeakWindSpeed` (WindActionLib.cpp, lines 145-158). -/
def PeakWindSpeed {F : Type} [Field F] (log : F → F) (pow : F → F → F)
    (_iFundamentalBasicWindSpeed : Int) (_dProbabilityofExceedance : F)
    (_iHeight : Int) (_cTerrainCategory : Char) (_dTopogaphyactor : F) : F :=
  let dVbpeak : F :=
    1.4 * BasicWindSpeed log pow _iFundamentalBasicWindSpeed _dProbabilityofExceedance
  let dCr : F := TerrainRoughness pow _iHeight _cTerrainCategory
  dVbpeak * dCr * _dTopogaphyactor

/-- `WindAction::PeakWindSpeedPressure` (WindActionLib.cpp, lines 20-44). The `&&` evaluates
its right operand only when the left one returned true; the final `else` is the path that
returns the initial `dReturn = 0.0`. -/
def PeakWindSpeedPressure {F : Type} [Field F] (log : F → F) (pow : F → F → F)
    (_iAltitude : Nat) (_iFundamentalBasicWindSpeed : Int) (_dProbabilityofExceedance : F)
    (_iHeight : Int) (_cTerrainCategory : Char) (_dTopogaphyactor : F) :
    Except InvalidArgument F :=
  (IsValidBasicWindSpeed _iFundamentalBasicWindSpeed).bind fun bSpeed =>
  (if bSpeed then IsValidTerrainCategory _cTerrainCategory else pure false).bind fun bValid =>
  if bValid then
    (AirDensity _iAltitude).bind fun dp =>
    let dVp : F := PeakWindSpeed log pow _iFundamentalBasicWindSpeed _dProbabilityofExceedance
      _iHeight _cTerrainCategory _dTopogaphyactor
    pure ((1.0 / 2.0) * dp * pow dVp 2.0)
  else
    pure 0.0


/-- The conversion C++ applies when a signed `int` argument is passed for an `unsigned int`
parameter (32 bits): the value modulo 2^32. -/
def toUnsigned (i : Int) : Nat :=
  (i % 2 ^ 32).toNat

/-- A `double` together with its non-finite values: a finite number of `F`, or a value that is
not finite (an infinity or NaN). Used where the code divides by zero. -/
inductive Double (F : Type) where
  | finite (value : F)
  | notFinite
deriving DecidableEq, Repr

/-- IEEE 754 division of two finite doubles: a zero divisor gives an infinity (non-zero
dividend) or NaN (zero dividend), any other divisor the quotient. -/
def divDouble {F : Type} [Field F] [DecidableEq F] (a b : F) : Double F :=
  if b = 0 then .notFinite else .finite (a / b)

/-- The C library's `pow(x, y)` for an exponent `y ≥ 0` and a base that may be non-finite:
`pow(x, ±0)` is 1 for every `x`, NaN and the infinities included (C standard, Annex F); for a
positive exponent a non-finite base gives a non-finite result and a finite base is handed to
the parameter `pow`. -/
def powDouble {F : Type} [Field F] [DecidableEq F] (pow : F → F → F) (x : Double F) (y : F) :
    Double F :=
  if y = 0 then .finite 1
  else
    match x with
    | .finite v => .finite (pow v y)
    | .notFinite => .notFinite

/-- Multiplication of a possibly non-finite double by the finite non-zero constant `a`. -/
def scaleDouble {F : Type} [Field F] (a : F) (x : Double F) : Double F :=
  match x with
  | .finite v => .finite (a * v)
  | .notFinite => .notFinite

/-- `WindAction::TerrainRoughness` (WindActionLib.cpp, lines 198-241) once more, with the
division of line 237 and the `pow` of line 238 evaluated on doubles that may be non-finite. -/
def TerrainRoughnessIEEE {F : Type} [Field F] [DecidableEq F] (pow : F → F → F)
    (_iHeight : Int) (_cTerrainCategory : Char) : Double F :=
  let k : TerrainConstants F := terrainSwitch _cTerrainCategory
  let dtemp : Double F := divDouble ((_iHeight - k.iZ0 : Int) : F) ((k.iZg - k.iZc : Int) : F)
  scaleDouble 1.36 (powDouble pow dtemp k.dAExponent)

/-- The local `dtemp` of `WindAction::TerrainRoughness` (WindActionLib.cpp, line 237): the base
of the power, `(height − Z0) / (Zg − Zc)` with both differences taken in `int`. -/
def roughnessBase {F : Type} [Field F] (_iHeight : Int) (_cTerrainCategory : Char) : F :=
  let k : TerrainConstants F := terrainSwitch _cTerrainCategory
  ((_iHeight - k.iZ0 : Int) : F) / ((k.iZg - k.iZc : Int) : F)

/-! ## Definitions that follow the specification -/

/-- The reference points of the specification, section 4.2: altitude in metres and air density
in kg/m³. -/
def referencePoints {F : Type} [Field F] : List (Nat × F) :=
  [(0, 1.20), (500, 1.12), (1000, 1.06), (1500, 1.00), (2000, 0.94)]

/-- The bands of the specification: the pairs of consecutive reference points. -/
def referenceBands {F : Type} [Field F] : List ((Nat × F) × (Nat × F)) :=
  referencePoints.zip referencePoints.tail

/-- The linear interpolant of the specification through the points `P = (x1, y1)` and
`Q = (x2, y2)`, at `x`: `y1 + (y2 − y1)·(x − x1)/(x2 − x1)`. -/
def interpolant {F : Type} [Field F] (P Q : Nat × F) (x : Nat) : F :=
  P.2 + (Q.2 - P.2) * ((x : F) - (P.1 : F)) / ((Q.1 : F) - (P.1 : F))

/-- The line `y = m*x + c` that a band of `AirDensity` evaluates, with the slope
`m = (y2-y1)/(x2-x1)` and the intercept `c = y1 - m*x1` of the source's comments
(WindActionLib.cpp, lines 104-105, 109-110, 114-115, 119-120). -/
def bandLine {F : Type} [Field F] (y1 y2 : F) (x1 x2 : Int) (x : Nat) : F :=
  let dM_slope : F := (y2 - y1) / ((x2 - x1 : Int) : F)
  dM_slope * (x : F) + (y1 - dM_slope * (x1 : F))

/-! ## Shared lemmas -/

theorem findExists_eq_true_iff {α : Type} [DecidableEq α] (table : List α) (x : α) :
    findExists table x = true ↔ x ∈ table := by
  unfold findExists
  rw [bne_iff_ne, ← List.indexOf_lt_length]
  constructor
  · intro h
    exact lt_of_le_of_ne List.indexOf_le_length h
  · intro h
    exact ne_of_lt h

theorem findExists_eq_false_iff {α : Type} [DecidableEq α] (table : List α) (x : α) :
    findExists table x = false ↔ x ∉ table := by
  rw [← findExists_eq_true_iff, Bool.not_eq_true]

theorem IsValidBasicWindSpeed_of_mem {v : Int} (h : v ∈ BASICWINDSPEED) :
    IsValidBasicWindSpeed v = .ok true := by
  have hb : findExists BASICWINDSPEED v = true := (findExists_eq_true_iff _ _).2 h
  simp [IsValidBasicWindSpeed, hb, pure, Except.pure]

theorem IsValidBasicWindSpeed_of_not_mem {v : Int} (h : v ∉ BASICWINDSPEED) :
    IsValidBasicWindSpeed v = .error ⟨"received Invaild Basic Wind Speed value"⟩ := by
  have hb : findExists BASICWINDSPEED v = false := (findExists_eq_false_iff _ _).2 h
  simp [IsValidBasicWindSpeed, hb, throw, throwThe, MonadExceptOf.throw]

theorem IsValidTerrainCategory_of_mem {c : Char} (h : c ∈ TERRAINCATEGORIES) :
    IsValidTerrainCategory c = .ok true := by
  have hb : findExists TERRAINCATEGORIES c = true := (findExists_eq_true_iff _ _).2 h
  simp [IsValidTerrainCategory, hb, pure, Except.pure]

theorem IsValidTerrainCategory_of_not_mem {c : Char} (h : c ∉ TERRAINCATEGORIES) :
    IsValidTerrainCategory c = .error ⟨"received Invaild Terrain Category value"⟩ := by
  have hb : findExists TERRAINCATEGORIES c = false := (findExists_eq_false_iff _ _).2 h
  simp [IsValidTerrainCategory, hb, throw, throwThe, MonadExceptOf.throw]

theorem AirDensity_ok {F : Type} [Field F] (alt : Nat) :
    ∃ d : F, AirDensity alt = .ok d := by
  unfold AirDensity
  split_ifs with hneg <;> first | exact ⟨_, rfl⟩ | exact absurd hneg (Nat.not_lt_zero _)

theorem PeakWindSpeedPressure_of_valid {F : Type} [Field F] (log : F → F) (pow : F → F → F)
    (alt : Nat) (p : F) (h : Int) (t : F) {v : Int} {c : Char} {d : F}
    (hv : v ∈ BASICWINDSPEED) (hc : c ∈ TERRAINCATEGORIES)
    (hd : AirDensity alt = .ok d) :
    PeakWindSpeedPressure log pow alt v p h c t =
      .ok ((1.0 / 2.0) * d * pow (PeakWindSpeed log pow v p h c t) 2.0) := by
  simp [PeakWindSpeedPressure, IsValidBasicWindSpeed_of_mem hv,
    IsValidTerrainCategory_of_mem hc, hd, Except.bind, pure, Except.pure]

theorem PeakWindSpeedPressure_of_bad_speed {F : Type} [Field F] (log : F → F)
    (pow : F → F → F) (alt : Nat) (p : F) (h : Int) (c : Char) (t : F) {v : Int}
    (hv : v ∉ BASICWINDSPEED) :
    PeakWindSpeedPressure log pow alt v p h c t =
      .error ⟨"received Invaild Basic Wind Speed value"⟩ := by
  simp [PeakWindSpeedPressure, IsValidBasicWindSpeed_of_not_mem hv, Except.bind]

theorem PeakWindSpeedPressure_of_bad_category {F : Type} [Field F] (log : F → F)
    (pow : F → F → F) (alt : Nat) (p : F) (h : Int) (t : F) {v : Int} {c : Char}
    (hv : v ∈ BASICWINDSPEED) (hc : c ∉ TERRAINCATEGORIES) :
    PeakWindSpeedPressure log pow alt v p h c t =
      .error ⟨"received Invaild Terrain Category value"⟩ := by
  simp [PeakWindSpeedPressure, IsValidBasicWindSpeed_of_mem hv,
    IsValidTerrainCategory_of_not_mem hc, Except.bind]

/-- The entry point raises exactly on an invalid speed or category, whatever the field and
the two library functions are. -/
theorem PeakWindSpeedPressure_error_iff {F : Type} [Field F] (log : F → F)
    (pow : F → F → F) (alt : Nat) (v : Int) (p : F) (h : Int) (c : Char) (t : F) :
    (∃ e, PeakWindSpeedPressure log pow alt v p h c t = .error e) ↔
      (v ∉ BASICWINDSPEED ∨ c ∉ TERRAINCATEGORIES) := by
  by_cases hv : v ∈ BASICWINDSPEED
  · by_cases hc : c ∈ TERRAINCATEGORIES
    · obtain ⟨d, hd⟩ := AirDensity_ok (F := F) alt
      simp [PeakWindSpeedPressure_of_valid log pow alt p h t hv hc hd, hv, hc]
    · simp [PeakWindSpeedPressure_of_bad_category log pow alt p h t hv hc, hv, hc]
  · simp [PeakWindSpeedPressure_of_bad_speed log pow alt p h c t hv, hv]

theorem AirDensity_zero {F : Type} [Field F] :
    (AirDensity 0 : Except InvalidArgument F) = .ok 1.20 := by
  simp [AirDensity, pure, Except.pure]

theorem AirDensity_band1 {F : Type} [Field F] (x : Nat) (h0 : 0 < x) (h1 : x ≤ 500) :
    (AirDensity x : Except InvalidArgument F) = .ok (bandLine 1.20 1.12 0 500 x) := by
  have hx : x ≠ 0 := by omega
  simp [AirDensity, bandLine, pure, Except.pure, hx, h1]

theorem AirDensity_band2 {F : Type} [Field F] (x : Nat) (h0 : 500 < x) (h1 : x ≤ 1000) :
    (AirDensity x : Except InvalidArgument F) = .ok (bandLine 1.12 1.06 500 1000 x) := by
  have hx : x ≠ 0 := by omega
  have hx1 : ¬ x ≤ 500 := by omega
  simp [AirDensity, bandLine, pure, Except.pure, hx, hx1, h0, h1]

theorem AirDensity_band3 {F : Type} [Field F] (x : Nat) (h0 : 1000 < x) (h1 : x ≤ 1500) :
    (AirDensity x : Except InvalidArgument F) = .ok (bandLine 1.06 1.0 1000 1500 x) := by
  have hx : x ≠ 0 := by omega
  have hx1 : ¬ x ≤ 500 := by omega
  have hx2 : ¬ x ≤ 1000 := by omega
  simp [AirDensity, bandLine, pure, Except.pure, hx, hx1, hx2, h0, h1]

theorem AirDensity_band4 {F : Type} [Field F] (x : Nat) (h0 : 1500 < x) (h1 : x ≤ 2000) :
    (AirDensity x : Except InvalidArgument F) = .ok (bandLine 1.0 0.94 1500 2000 x) := by
  have hx : x ≠ 0 := by omega
  have hx1 : ¬ x ≤ 500 := by omega
  have hx2 : ¬ x ≤ 1000 := by omega
  have hx3 : ¬ x ≤ 1500 := by omega
  simp [AirDensity, bandLine, pure, Except.pure, hx, hx1, hx2, hx3, h0, h1]

theorem AirDensity_above {F : Type} [Field F] (x : Nat) (h0 : 2000 < x) :
    (AirDensity x : Except InvalidArgument F) = .ok 0.94 := by
  have hx : x ≠ 0 := by omega
  have hx1 : ¬ x ≤ 500 := by omega
  have hx2 : ¬ x ≤ 1000 := by omega
  have hx3 : ¬ x ≤ 1500 := by omega
  have hx4 : ¬ x ≤ 2000 := by omega
  simp [AirDensity, pure, Except.pure, hx, hx1, hx2, hx3, hx4, h0]

/-! ## C3, C4: the validators -/

/-- C3: for every integer speed, `IsValidBasicWindSpeed` returns true exactly when the speed is
one of 28, 32, 36, raises InvalidArgument (with the message of the source) exactly when it is
not, and returns false for no input. -/
theorem IsValidBasicWindSpeed_true_or_raises (speed : Int) :
    (IsValidBasicWindSpeed speed = .ok true ↔ speed ∈ ([28, 32, 36] : List Int)) ∧
    (IsValidBasicWindSpeed speed = .error ⟨"received Invaild Basic Wind Speed value"⟩ ↔
      speed ∉ ([28, 32, 36] : List Int)) ∧
    ((∃ e, IsValidBasicWindSpeed speed = .error e) ↔ speed ∉ ([28, 32, 36] : List Int)) ∧
    IsValidBasicWindSpeed speed ≠ .ok false := by
  by_cases h : speed ∈ BASICWINDSPEED
  · have h' : speed ∈ ([28, 32, 36] : List Int) := h
    simp [IsValidBasicWindSpeed_of_mem h, h']
  · have h' : speed ∉ ([28, 32, 36] : List Int) := h
    simp [IsValidBasicWindSpeed_of_not_mem h, h']

/-- C4: for every character code, `IsValidTerrainCategory` returns true exactly when the code
is one of the upper-case letters A, B, C, D, raises InvalidArgument (with the message of the
source) exactly when it is not, as for E and for lower-case a, and returns false for no input. -/
theorem IsValidTerrainCategory_true_or_raises (code : Char) :
    (IsValidTerrainCategory code = .ok true ↔ code ∈ ['A', 'B', 'C', 'D']) ∧
    (IsValidTerrainCategory code = .error ⟨"received Invaild Terrain Category value"⟩ ↔
      code ∉ ['A', 'B', 'C', 'D']) ∧
    ((∃ e, IsValidTerrainCategory code = .error e) ↔ code ∉ ['A', 'B', 'C', 'D']) ∧
    IsValidTerrainCategory code ≠ .ok false ∧
    (∃ e, IsValidTerrainCategory 'E' = .error e) ∧
    (∃ e, IsValidTerrainCategory 'a' = .error e) := by
  have hE : IsValidTerrainCategory 'E' = .error ⟨"received Invaild Terrain Category value"⟩ :=
    IsValidTerrainCategory_of_not_mem (by decide)
  have ha : IsValidTerrainCategory 'a' = .error ⟨"received Invaild Terrain Category value"⟩ :=
    IsValidTerrainCategory_of_not_mem (by decide)
  by_cases h : code ∈ TERRAINCATEGORIES
  · have h' : code ∈ ['A', 'B', 'C', 'D'] := h
    simp [IsValidTerrainCategory_of_mem h, h', hE, ha]
  · have h' : code ∉ ['A', 'B', 'C', 'D'] := h
    simp [IsValidTerrainCategory_of_not_mem h, h', hE, ha]

/-! ## C1, C2: the entry point -/

/-- C1: for every input tuple, `PeakWindSpeedPressure` raises InvalidArgument if and only if
fundamentalSpeed is not one of 28, 32, 36 or terrainCategory is not one of A, B, C, D; in every
other case (and only then) it returns a numeric result; and whether it raises does not change
when altitude, probability, height and topographyFactor are replaced by any other values. -/
theorem PeakWindSpeedPressure_raises_iff {F : Type} [Field F] (log : F → F)
    (pow : F → F → F) (altitude : Nat) (fundamentalSpeed : Int) (probability : F)
    (height : Int) (terrainCategory : Char) (topographyFactor : F) :
    ((∃ e, PeakWindSpeedPressure log pow altitude fundamentalSpeed probability height
          terrainCategory topographyFactor = .error e) ↔
      (fundamentalSpeed ∉ ([28, 32, 36] : List Int) ∨
        terrainCategory ∉ ['A', 'B', 'C', 'D'])) ∧
    ((∃ r, PeakWindSpeedPressure log pow altitude fundamentalSpeed probability height
          terrainCategory topographyFactor = .ok r) ↔
      (fundamentalSpeed ∈ ([28, 32, 36] : List Int) ∧
        terrainCategory ∈ ['A', 'B', 'C', 'D'])) ∧
    (∀ (altitude' : Nat) (probability' : F) (height' : Int) (topographyFactor' : F),
      (∃ e, PeakWindSpeedPressure log pow altitude fundamentalSpeed probability height
          terrainCategory topographyFactor = .error e) ↔
      (∃ e, PeakWindSpeedPressure log pow altitude' fundamentalSpeed probability' height'
          terrainCategory topographyFactor' = .error e)) := by
  have key := PeakWindSpeedPressure_error_iff log pow altitude fundamentalSpeed probability
    height terrainCategory topographyFactor
  refine ⟨key, ?_, ?_⟩
  · constructor
    · rintro ⟨r, hr⟩
      by_contra hneg
      have hbad : fundamentalSpeed ∉ BASICWINDSPEED ∨ terrainCategory ∉ TERRAINCATEGORIES := by
        by_cases hv : fundamentalSpeed ∈ BASICWINDSPEED
        · right
          intro hc
          exact hneg ⟨hv, hc⟩
        · left
          exact hv
      obtain ⟨e, he⟩ := key.2 hbad
      rw [hr] at he
      cases he
    · rintro ⟨hv, hc⟩
      obtain ⟨d, hd⟩ := AirDensity_ok (F := F) altitude
      exact ⟨_, PeakWindSpeedPressure_of_valid log pow altitude probability height
        topographyFactor hv hc hd⟩
  · intro altitude' probability' height' topographyFactor'
    rw [key, PeakWindSpeedPressure_error_iff]

/-- C2: for every input with fundamentalSpeed in 28, 32, 36 and terrainCategory in A, B, C, D,
`AirDensity altitude` returns a density and `PeakWindSpeedPressure` returns exactly
0.5 × that density × PeakWindSpeed(fundamentalSpeed, p, height, category, topo)²: the value
returned on this path is the assigned one, not the initial 0.0 of the result variable. Stated
over the reals, where `pow(x, 2.0)` is the square. -/
theorem PeakWindSpeedPressure_eq_half_density_speed_sq (altitude : Nat)
    (fundamentalSpeed : Int) (p : ℝ) (height : Int) (category : Char) (topo : ℝ)
    (hv : fundamentalSpeed ∈ ([28, 32, 36] : List Int))
    (hc : category ∈ ['A', 'B', 'C', 'D']) :
    ∃ density : ℝ, AirDensity altitude = .ok density ∧
      PeakWindSpeedPressure Real.log Real.rpow altitude fundamentalSpeed p height category topo =
        .ok (0.5 * density *
          (PeakWindSpeed Real.log Real.rpow fundamentalSpeed p height category topo) ^ 2) := by
  obtain ⟨d, hd⟩ := AirDensity_ok (F := ℝ) altitude
  refine ⟨d, hd, ?_⟩
  rw [PeakWindSpeedPressure_of_valid Real.log Real.rpow altitude p height topo hv hc hd]
  congr 1
  have h2 : (2.0 : ℝ) = ((2 : ℕ) : ℝ) := by norm_num
  rw [Real.rpow_eq_pow, h2, Real.rpow_natCast]
  norm_num

/-! ## C5, C6: air density -/

theorem bandLine_values {F : Type} [Field F] [CharZero F] :
    (bandLine (1.20 : F) 1.12 0 500 500 = 1.12 ∧ bandLine (1.12 : F) 1.06 500 1000 500 = 1.12) ∧
    (bandLine (1.12 : F) 1.06 500 1000 1000 = 1.06 ∧
      bandLine (1.06 : F) 1.0 1000 1500 1000 = 1.06) ∧
    (bandLine (1.06 : F) 1.0 1000 1500 1500 = 1.00 ∧
      bandLine (1.0 : F) 0.94 1500 2000 1500 = 1.00) ∧
    bandLine (1.0 : F) 0.94 1500 2000 2000 = 0.94 := by
  simp only [bandLine]
  norm_num

/-- C5: for every altitude x with 0 ≤ x ≤ 2000, x lies in a band between two consecutive
reference points of (0, 1.20), (500, 1.12), (1000, 1.06), (1500, 1.00), (2000, 0.94), and for
every such band (x1, y1)-(x2, y2) with x1 ≤ x ≤ x2, `AirDensity x` returns
y1 + (y2 − y1)·(x − x1)/(x2 − x1); `AirDensity 0` returns 1.20. Arithmetic is exact (any field
of characteristic zero, the rationals among them). -/
theorem AirDensity_eq_interpolant {F : Type} [Field F] [CharZero F] (x : Nat)
    (hx : x ≤ 2000) :
    (∃ P Q : Nat × F, (P, Q) ∈ referenceBands ∧ P.1 ≤ x ∧ x ≤ Q.1) ∧
    (∀ P Q : Nat × F, (P, Q) ∈ referenceBands → P.1 ≤ x → x ≤ Q.1 →
      AirDensity x = .ok (interpolant P Q x)) ∧
    (AirDensity 0 : Except InvalidArgument F) = .ok 1.20 := by
  refine ⟨?_, ?_, AirDensity_zero⟩
  · by_cases h1 : x ≤ 500
    · exact ⟨(0, 1.20), (500, 1.12), by simp [referenceBands, referencePoints], by simp, h1⟩
    · by_cases h2 : x ≤ 1000
      · exact ⟨(500, 1.12), (1000, 1.06), by simp [referenceBands, referencePoints],
          by simp; omega, h2⟩
      · by_cases h3 : x ≤ 1500
        · exact ⟨(1000, 1.06), (1500, 1.00), by simp [referenceBands, referencePoints],
            by simp; omega, h3⟩
        · exact ⟨(1500, 1.00), (2000, 0.94), by simp [referenceBands, referencePoints],
            by simp; omega, hx⟩
  · intro P Q hband hlo hhi
    obtain ⟨⟨h500a, h500b⟩, ⟨h1000a, h1000b⟩, ⟨h1500a, h1500b⟩, -⟩ := bandLine_values (F := F)
    simp only [referenceBands, referencePoints, List.tail_cons, List.zip_cons_cons,
      List.zip_nil_right, List.mem_cons, Prod.mk.injEq, List.mem_singleton,
      List.not_mem_nil, or_false] at hband
    rcases hband with ⟨rfl, rfl⟩ | ⟨rfl, rfl⟩ | ⟨rfl, rfl⟩ | ⟨rfl, rfl⟩
    · rcases Nat.eq_zero_or_pos x with rfl | h0
      · rw [AirDensity_zero]
        simp [interpolant]
      · rw [AirDensity_band1 x h0 hhi]
        simp only [interpolant, bandLine]
        congr 1
        push_cast
        ring
    · rcases Nat.eq_or_lt_of_le hlo with heq | hlt
      · have hx500 : x = 500 := heq.symm
        subst hx500
        rw [AirDensity_band1 500 (by norm_num) (by norm_num), h500a]
        simp [interpolant]
      · rw [AirDensity_band2 x hlt hhi]
        simp only [interpolant, bandLine]
        congr 1
        push_cast
        ring
    · rcases Nat.eq_or_lt_of_le hlo with heq | hlt
      · have hx1000 : x = 1000 := heq.symm
        subst hx1000
        rw [AirDensity_band2 1000 (by norm_num) (by norm_num), h1000a]
        simp [interpolant]
      · rw [AirDensity_band3 x hlt hhi]
        simp only [interpolant, bandLine]
        congr 1
        push_cast
        ring
    · rcases Nat.eq_or_lt_of_le hlo with heq | hlt
      · have hx1500 : x = 1500 := heq.symm
        subst hx1500
        rw [AirDensity_band3 1500 (by norm_num) (by norm_num), h1500a]
        simp [interpolant]
      · rw [AirDensity_band4 x hlt hhi]
        simp only [interpolant, bandLine]
        congr 1
        push_cast
        ring

/-- Witness of C5 over the rationals: 750 m lies in the band from (500, 1.12) to (1000, 1.06),
and the density there is the interpolant 1.09. -/
theorem AirDensity_eq_interpolant_witness :
    (750 ≤ 2000) ∧
    (AirDensity 750 : Except InvalidArgument ℚ) = .ok (interpolant (500, 1.12) (1000, 1.06) 750) ∧
    interpolant ((500 : Nat), (1.12 : ℚ)) (1000, 1.06) 750 = 1.09 :=
  ⟨by decide,
   (AirDensity_eq_interpolant (F := ℚ) 750 (by decide)).2.1 (500, 1.12) (1000, 1.06)
     (by simp [referenceBands, referencePoints]) (by decide) (by decide),
   by norm_num [interpolant]⟩

/-- C6: `AirDensity` returns the tabulated value at every breakpoint (1.12 at 500, 1.06 at
1000, 1.00 at 1500, 0.94 at 2000) and exactly 0.94 for every altitude above 2000; each band of
the code evaluates its own line, and at each interior breakpoint 500, 1000, 1500 the line of the
band below and the line of the band above take the same value, the tabulated one. -/
theorem AirDensity_breakpoints_and_clamp {F : Type} [Field F] [CharZero F] :
    ((AirDensity 500 : Except InvalidArgument F) = .ok 1.12 ∧
      (AirDensity 1000 : Except InvalidArgument F) = .ok 1.06 ∧
      (AirDensity 1500 : Except InvalidArgument F) = .ok 1.00 ∧
      (AirDensity 2000 : Except InvalidArgument F) = .ok 0.94) ∧
    (∀ altitude : Nat, 2000 < altitude →
      (AirDensity altitude : Except InvalidArgument F) = .ok 0.94) ∧
    (∀ x : Nat,
      (0 < x ∧ x ≤ 500 →
        (AirDensity x : Except InvalidArgument F) = .ok (bandLine 1.20 1.12 0 500 x)) ∧
      (500 < x ∧ x ≤ 1000 →
        (AirDensity x : Except InvalidArgument F) = .ok (bandLine 1.12 1.06 500 1000 x)) ∧
      (1000 < x ∧ x ≤ 1500 →
        (AirDensity x : Except InvalidArgument F) = .ok (bandLine 1.06 1.0 1000 1500 x)) ∧
      (1500 < x ∧ x ≤ 2000 →
        (AirDensity x : Except InvalidArgument F) = .ok (bandLine 1.0 0.94 1500 2000 x))) ∧
    (bandLine (1.20 : F) 1.12 0 500 500 = 1.12 ∧
      bandLine (1.12 : F) 1.06 500 1000 500 = 1.12) ∧
    (bandLine (1.12 : F) 1.06 500 1000 1000 = 1.06 ∧
      bandLine (1.06 : F) 1.0 1000 1500 1000 = 1.06) ∧
    (bandLine (1.06 : F) 1.0 1000 1500 1500 = 1.00 ∧
      bandLine (1.0 : F) 0.94 1500 2000 1500 = 1.00) := by
  obtain ⟨h500, h1000, h1500, h2000⟩ := bandLine_values (F := F)
  refine ⟨⟨?_, ?_, ?_, ?_⟩, ?_, ?_, h500, h1000, h1500⟩
  · rw [AirDensity_band1 500 (by norm_num) (by norm_num), h500.1]
  · rw [AirDensity_band2 1000 (by norm_num) (by norm_num), h1000.1]
  · rw [AirDensity_band3 1500 (by norm_num) (by norm_num), h1500.1]
  · rw [AirDensity_band4 2000 (by norm_num) (by norm_num), h2000]
  · intro altitude h
    exact AirDensity_above altitude h
  · intro x
    exact ⟨fun h => AirDensity_band1 x h.1 h.2, fun h => AirDensity_band2 x h.1 h.2,
      fun h => AirDensity_band3 x h.1 h.2, fun h => AirDensity_band4 x h.1 h.2⟩

/-- Witness of C6 over the rationals: 2001 m and 4294967295 m are above the table and get
0.94, and 1000 m gets the tabulated 1.06. -/
theorem AirDensity_breakpoints_and_clamp_witness :
    (AirDensity 2001 : Except InvalidArgument ℚ) = .ok 0.94 ∧
    (AirDensity 4294967295 : Except InvalidArgument ℚ) = .ok 0.94 ∧
    (AirDensity 1000 : Except InvalidArgument ℚ) = .ok 1.06 :=
  ⟨(AirDensity_breakpoints_and_clamp (F := ℚ)).2.1 2001 (by decide),
   (AirDensity_breakpoints_and_clamp (F := ℚ)).2.1 4294967295 (by decide),
   (AirDensity_breakpoints_and_clamp (F := ℚ)).1.2.1⟩

/-! ## C7: terrain roughness -/

/-- C7: for every integer height, `TerrainRoughness` of category A, B, C, D is
1.36 × ((height − Z0) / (Zg − Zc)) ^ a with the row (Z0, Zg, Zc, a) of that category:
A = (0, 250, 1, 0.070), B = (0, 300, 2, 0.095), C = (3, 350, 5, 0.120), D = (5, 400, 10, 0.150).
The quotient is a division in the field, not an integer division: with a `pow` that returns
its base, height 12 in category A gives 1.36 × 12/249 and not 1.36 × 0. -/
theorem TerrainRoughness_eq_table_formula {F : Type} [Field F] [CharZero F]
    (pow : F → F → F) (height : Int) :
    TerrainRoughness pow height 'A' =
      1.36 * pow (((height : F) - 0) / ((250 : F) - 1)) 0.070 ∧
    TerrainRoughness pow height 'B' =
      1.36 * pow (((height : F) - 0) / ((300 : F) - 2)) 0.095 ∧
    TerrainRoughness pow height 'C' =
      1.36 * pow (((height : F) - 3) / ((350 : F) - 5)) 0.120 ∧
    TerrainRoughness pow height 'D' =
      1.36 * pow (((height : F) - 5) / ((400 : F) - 10)) 0.150 ∧
    TerrainRoughness (fun base _ => base) 12 'A' = (1.36 : F) * (12 / 249) ∧
    TerrainRoughness (fun base _ => base) 12 'A' ≠ (1.36 : F) * (((12 - 0) / (250 - 1) : Int) : F) := by
  refine ⟨?_, ?_, ?_, ?_, ?_, ?_⟩
  · simp [TerrainRoughness, terrainSwitch, TERRAINCATEGORY_A]
    norm_num
  · simp [TerrainRoughness, terrainSwitch, TERRAINCATEGORY_A, TERRAINCATEGORY_B]
    norm_num
  · simp [TerrainRoughness, terrainSwitch, TERRAINCATEGORY_A, TERRAINCATEGORY_B,
      TERRAINCATEGORY_C]
    norm_num
  · simp [TerrainRoughness, terrainSwitch, TERRAINCATEGORY_A, TERRAINCATEGORY_B,
      TERRAINCATEGORY_C, TERRAINCATEGORY_D]
    norm_num
  · simp [TerrainRoughness, terrainSwitch, TERRAINCATEGORY_A]
  · simp [TerrainRoughness, terrainSwitch, TERRAINCATEGORY_A]
    norm_num

/-- Witness of C7 over the rationals, with a `pow` that returns its base: height 12 in
category C gives 1.36 × (12 − 3)/(350 − 5). -/
theorem TerrainRoughness_eq_table_formula_witness :
    TerrainRoughness (fun base _ => base) 12 'C' =
      (1.36 : ℚ) * ((((12 : Int) : ℚ) - 3) / ((350 : ℚ) - 5)) :=
  (TerrainRoughness_eq_table_formula (F := ℚ) (fun base _ => base) 12).2.2.1

/-! ## C8, C9, C10: basic and peak wind speed -/

theorem neg_log_reference_mem : 0 < -Real.log 0.98 ∧ -Real.log 0.98 < 1 := by
  have hneg : Real.log 0.98 < 0 := Real.log_neg (by norm_num) (by norm_num)
  have hlow : 1 - (0.98 : ℝ)⁻¹ ≤ Real.log 0.98 :=
    Real.one_sub_inv_le_log_of_pos (by norm_num)
  have hnum : (-1 : ℝ) < 1 - (0.98 : ℝ)⁻¹ := by norm_num
  constructor <;> linarith

theorem Cprob_denominator_gt_one : 1 < 1 - 0.2 * Real.log (-1 * Real.log 0.98) := by
  obtain ⟨hpos, hlt⟩ := neg_log_reference_mem
  have hlog : Real.log (-1 * Real.log 0.98) < 0 := by
    rw [neg_one_mul]
    exact Real.log_neg hpos hlt
  nlinarith

theorem neg_log_one_sub_pos {p : ℝ} (h0 : 0 < p) (h1 : p < 1) :
    0 < 1 - p ∧ 0 < -Real.log (1 - p) := by
  have hpos : 0 < 1 - p := by linarith
  have hneg : Real.log (1 - p) < 0 := Real.log_neg hpos (by linarith)
  exact ⟨hpos, by linarith⟩

theorem BasicWindSpeed_at_reference (v : Int) :
    BasicWindSpeed Real.log Real.rpow v 0.02 = (v : ℝ) := by
  have hden := Cprob_denominator_gt_one
  have hne : 1 - 0.2 * Real.log (-1 * Real.log 0.98) ≠ 0 := by linarith
  have h98 : (1 : ℝ) - 0.02 = 0.98 := by norm_num
  simp only [BasicWindSpeed, h98]
  rw [div_self hne]
  simp

/-- C8: for every integer fundamentalSpeed v (valid or not) and every real probability p with
0 < p < 1, `BasicWindSpeed v p` is Cprob(p) × v with
Cprob(p) = ((1 − K·ln(−ln(1 − p))) / (1 − K·ln(−ln 0.98))) ^ n, K = 0.2 and n = 0.5; on this
domain both logarithms are taken of positive numbers and the divisor is not zero. The function
has no failing path: it is total on all integers v. -/
theorem BasicWindSpeed_eq_Cprob_mul (v : Int) (p : ℝ) (h0 : 0 < p) (h1 : p < 1) :
    BasicWindSpeed Real.log Real.rpow v p =
      ((1 - 0.2 * Real.log (-Real.log (1 - p))) / (1 - 0.2 * Real.log (-Real.log 0.98)))
        ^ (0.5 : ℝ) * (v : ℝ) ∧
    0 < 1 - p ∧ 0 < -Real.log (1 - p) ∧ 0 < -Real.log 0.98 ∧
    1 - 0.2 * Real.log (-Real.log 0.98) ≠ 0 := by
  obtain ⟨hp1, hp2⟩ := neg_log_one_sub_pos h0 h1
  have hden := Cprob_denominator_gt_one
  rw [neg_one_mul] at hden
  refine ⟨?_, hp1, hp2, neg_log_reference_mem.1, by linarith⟩
  simp only [BasicWindSpeed, neg_one_mul, Real.rpow_eq_pow]

/-- Witness of C8 at the speed 30, which is not one of 28, 32, 36, and p = 1/2. -/
theorem BasicWindSpeed_eq_Cprob_mul_witness :
    BasicWindSpeed Real.log Real.rpow 30 (1 / 2) =
      ((1 - 0.2 * Real.log (-Real.log (1 - 1 / 2))) / (1 - 0.2 * Real.log (-Real.log 0.98)))
        ^ (0.5 : ℝ) * ((30 : Int) : ℝ) :=
  (BasicWindSpeed_eq_Cprob_mul 30 (1 / 2) (by norm_num) (by norm_num)).1

/-- C9: for every input, valid or not, `PeakWindSpeed v p height category topo` is
(1.4 × BasicWindSpeed v p) × TerrainRoughness height category × topo; the function has no
failing path of its own or of a callee, so it is total on every speed and every category. -/
theorem PeakWindSpeed_eq_product {F : Type} [Field F] (log : F → F) (pow : F → F → F)
    (v : Int) (p : F) (height : Int) (category : Char) (topo : F) :
    PeakWindSpeed log pow v p height category topo =
      (1.4 * BasicWindSpeed log pow v p) * TerrainRoughness pow height category * topo := by
  simp only [PeakWindSpeed]

/-- C10: for every valid fundamental basic wind speed v (28, 32 or 36),
`BasicWindSpeed v 0.02` is v: the function returns pow(numerator / denominator, 0.5) × v, and
at p = 0.02 the numerator and the denominator of the quotient are the same non-zero number,
so the quotient and Cprob are 1. -/
theorem BasicWindSpeed_reference_probability (v : Int)
    (_hv : v ∈ ([28, 32, 36] : List Int)) :
    BasicWindSpeed Real.log Real.rpow v 0.02 = (v : ℝ) ∧
    BasicWindSpeed Real.log Real.rpow v 0.02 =
      Real.rpow ((1 - 0.2 * Real.log (-1 * Real.log (1 - 0.02))) /
        (1 - 0.2 * Real.log (-1 * Real.log 0.98))) 0.5 * (v : ℝ) ∧
    1 - 0.2 * Real.log (-1 * Real.log (1 - 0.02)) = 1 - 0.2 * Real.log (-1 * Real.log 0.98) ∧
    1 - 0.2 * Real.log (-1 * Real.log 0.98) ≠ 0 ∧
    Real.rpow ((1 - 0.2 * Real.log (-1 * Real.log (1 - 0.02))) /
      (1 - 0.2 * Real.log (-1 * Real.log 0.98))) 0.5 = 1 := by
  have hden := Cprob_denominator_gt_one
  have hne : 1 - 0.2 * Real.log (-1 * Real.log 0.98) ≠ 0 := by linarith
  have h98 : (1 : ℝ) - 0.02 = 0.98 := by norm_num
  refine ⟨BasicWindSpeed_at_reference v, ?_, ?_, hne, ?_⟩
  · simp only [BasicWindSpeed]
  · rw [h98]
  · rw [h98, div_self hne]
    simp

/-- Witness of C10 at the speed 28. -/
theorem BasicWindSpeed_reference_probability_witness :
    BasicWindSpeed Real.log Real.rpow 28 0.02 = ((28 : Int) : ℝ) :=
  (BasicWindSpeed_reference_probability 28 (by decide)).1

/-! ## The unit test's input -/

theorem PeakWindSpeed_unit_test_pos :
    0 < PeakWindSpeed Real.log Real.rpow 28 0.02 12 'A' 1.0 := by
  have hb := BasicWindSpeed_at_reference 28
  have hr : 0 < Real.rpow (((12 - 0 : Int) : ℝ) / ((250 - 1 : Int) : ℝ)) 0.070 :=
    Real.rpow_pos_of_pos (by norm_num) _
  have ht : TerrainRoughness Real.rpow 12 'A' =
      1.36 * Real.rpow (((12 - 0 : Int) : ℝ) / ((250 - 1 : Int) : ℝ)) 0.070 := by
    simp [TerrainRoughness, terrainSwitch, TERRAINCATEGORY_A]
  simp only [PeakWindSpeed, hb, ht]
  have h28 : (0 : ℝ) < ((28 : Int) : ℝ) := by norm_num
  have h14 : (0 : ℝ) < 1.4 := by norm_num
  have h136 : (0 : ℝ) < 1.36 := by norm_num
  have h10 : (0 : ℝ) < 1.0 := by norm_num
  positivity

/-- Witness of C2 at the unit test's input 1500, 28, 0.02, 12, A, 1.0: the density is 1.00, the
result is 0.5 × 1.00 × PeakWindSpeed², and it is not the initial 0.0. -/
theorem PeakWindSpeedPressure_eq_half_density_speed_sq_witness :
    PeakWindSpeedPressure Real.log Real.rpow 1500 28 0.02 12 'A' 1.0 =
      .ok (0.5 * 1.00 * (PeakWindSpeed Real.log Real.rpow 28 0.02 12 'A' 1.0) ^ 2) ∧
    PeakWindSpeedPressure Real.log Real.rpow 1500 28 0.02 12 'A' 1.0 ≠ .ok 0.0 := by
  obtain ⟨d, hd, h⟩ := PeakWindSpeedPressure_eq_half_density_speed_sq 1500 28 0.02 12 'A' 1.0
    (by decide) (by decide)
  have h1500 : (AirDensity 1500 : Except InvalidArgument ℝ) = .ok 1.00 := by
    rw [AirDensity_band3 1500 (by norm_num) (by norm_num), bandLine_values.2.2.1.1]
  rw [h1500] at hd
  have hd1 : d = 1.00 := (Except.ok.inj hd).symm
  subst hd1
  refine ⟨h, ?_⟩
  rw [h]
  intro h0
  have hpos := PeakWindSpeed_unit_test_pos
  have hz := Except.ok.inj h0
  have : 0 < 0.5 * (1.00 : ℝ) * (PeakWindSpeed Real.log Real.rpow 28 0.02 12 'A' 1.0) ^ 2 := by
    positivity
  rw [hz] at this
  norm_num at this

/-! ## C11, C12: monotonicity in height and scaling in the topography factor -/

theorem TerrainRoughness_rows {F : Type} [Field F] (pow : F → F → F) (height : Int) :
    TerrainRoughness pow height 'A' = 1.36 * pow ((height : F) / 249) 0.070 ∧
    TerrainRoughness pow height 'B' = 1.36 * pow ((height : F) / 298) 0.095 ∧
    TerrainRoughness pow height 'C' = 1.36 * pow (((height : F) - 3) / 345) 0.120 ∧
    TerrainRoughness pow height 'D' = 1.36 * pow (((height : F) - 5) / 390) 0.150 := by
  refine ⟨?_, ?_, ?_, ?_⟩ <;>
    simp [TerrainRoughness, terrainSwitch, TERRAINCATEGORY_A, TERRAINCATEGORY_B,
      TERRAINCATEGORY_C, TERRAINCATEGORY_D]

theorem scaled_rpow_lt {x y a : ℝ} (hx : 0 ≤ x) (hxy : x < y) (ha : 0 < a) :
    1.36 * Real.rpow x a < 1.36 * Real.rpow y a := by
  have h := Real.rpow_lt_rpow hx hxy ha
  have h136 : (0 : ℝ) < 1.36 := by norm_num
  exact mul_lt_mul_of_pos_left h h136

/-- C11: for all integer heights h1 < h2, `TerrainRoughness` is strictly smaller at h1 than at
h2 in category A when h1 is above Zc = 1, in B when h1 is above 2, in C when h1 is above 5 and
in D when h1 is above 10 (h2, being larger, is then above Zc too). Stated over the reals with
`Real.rpow`. -/
theorem TerrainRoughness_strictly_increasing (h1 h2 : Int) (hlt : h1 < h2) :
    (1 < h1 → TerrainRoughness Real.rpow h1 'A' < TerrainRoughness Real.rpow h2 'A') ∧
    (2 < h1 → TerrainRoughness Real.rpow h1 'B' < TerrainRoughness Real.rpow h2 'B') ∧
    (5 < h1 → TerrainRoughness Real.rpow h1 'C' < TerrainRoughness Real.rpow h2 'C') ∧
    (10 < h1 → TerrainRoughness Real.rpow h1 'D' < TerrainRoughness Real.rpow h2 'D') := by
  obtain ⟨a1, b1, c1, d1⟩ := TerrainRoughness_rows Real.rpow h1
  obtain ⟨a2, b2, c2, d2⟩ := TerrainRoughness_rows Real.rpow h2
  have hlt' : (h1 : ℝ) < (h2 : ℝ) := by exact_mod_cast hlt
  refine ⟨?_, ?_, ?_, ?_⟩
  · intro hz
    have hz' : (1 : ℝ) < (h1 : ℝ) := by exact_mod_cast hz
    rw [a1, a2]
    exact scaled_rpow_lt (by positivity) (by linarith) (by norm_num)
  · intro hz
    have hz' : (2 : ℝ) < (h1 : ℝ) := by exact_mod_cast hz
    rw [b1, b2]
    exact scaled_rpow_lt (by positivity) (by linarith) (by norm_num)
  · intro hz
    have hz' : (5 : ℝ) < (h1 : ℝ) := by exact_mod_cast hz
    rw [c1, c2]
    exact scaled_rpow_lt (div_nonneg (by linarith) (by norm_num)) (by linarith) (by norm_num)
  · intro hz
    have hz' : (10 : ℝ) < (h1 : ℝ) := by exact_mod_cast hz
    rw [d1, d2]
    exact scaled_rpow_lt (div_nonneg (by linarith) (by norm_num)) (by linarith) (by norm_num)

/-- Witness of C11 at the heights 11 < 12, which are above Zc in every category. -/
theorem TerrainRoughness_strictly_increasing_witness :
    TerrainRoughness Real.rpow 11 'A' < TerrainRoughness Real.rpow 12 'A' ∧
    TerrainRoughness Real.rpow 11 'B' < TerrainRoughness Real.rpow 12 'B' ∧
    TerrainRoughness Real.rpow 11 'C' < TerrainRoughness Real.rpow 12 'C' ∧
    TerrainRoughness Real.rpow 11 'D' < TerrainRoughness Real.rpow 12 'D' :=
  ⟨(TerrainRoughness_strictly_increasing 11 12 (by decide)).1 (by decide),
   (TerrainRoughness_strictly_increasing 11 12 (by decide)).2.1 (by decide),
   (TerrainRoughness_strictly_increasing 11 12 (by decide)).2.2.1 (by decide),
   (TerrainRoughness_strictly_increasing 11 12 (by decide)).2.2.2 (by decide)⟩

/-- C12: for every valid fundamentalSpeed and terrainCategory and every altitude, probability,
height and topographyFactor t, `PeakWindSpeedPressure` returns a value r at t and returns 4 × r
at the doubled factor 2·t. Stated over the reals. -/
theorem PeakWindSpeedPressure_double_topography (altitude : Nat) (v : Int) (p : ℝ)
    (height : Int) (category : Char) (t : ℝ)
    (hv : v ∈ ([28, 32, 36] : List Int)) (hc : category ∈ ['A', 'B', 'C', 'D']) :
    ∃ r : ℝ,
      PeakWindSpeedPressure Real.log Real.rpow altitude v p height category t = .ok r ∧
      PeakWindSpeedPressure Real.log Real.rpow altitude v p height category (2 * t) =
        .ok (4 * r) := by
  obtain ⟨d, hd⟩ := AirDensity_ok (F := ℝ) altitude
  refine ⟨_, PeakWindSpeedPressure_of_valid Real.log Real.rpow altitude p height t hv hc hd, ?_⟩
  rw [PeakWindSpeedPressure_of_valid Real.log Real.rpow altitude p height (2 * t) hv hc hd]
  congr 1
  have h2 : (2.0 : ℝ) = ((2 : ℕ) : ℝ) := by norm_num
  simp only [PeakWindSpeed, Real.rpow_eq_pow, h2, Real.rpow_natCast]
  ring

/-- Witness of C12 at the unit test's input: doubling the factor 1.0 to 2 × 1.0 multiplies the
pressure by 4. -/
theorem PeakWindSpeedPressure_double_topography_witness :
    ∃ r : ℝ,
      PeakWindSpeedPressure Real.log Real.rpow 1500 28 0.02 12 'A' 1.0 = .ok r ∧
      PeakWindSpeedPressure Real.log Real.rpow 1500 28 0.02 12 'A' (2 * 1.0) = .ok (4 * r) :=
  PeakWindSpeedPressure_double_topography 1500 28 0.02 12 'A' 1.0 (by decide) (by decide)

/-! ## C14: negative altitudes -/

/-- C14 (evaluation of the code): the test `_iAltitude < 0` of `AirDensity` is made on an
unsigned value and never holds, so `AirDensity` returns a density for every altitude of the
unsigned interface and has no raising input; the signed argument −1 is received as
2^32 − 1 = 4294967295 and yields the density 0.94 of the band above 2000 m instead of
raising InvalidArgument. -/
theorem AirDensity_negative_one_returns_density {F : Type} [Field F] :
    toUnsigned (-1) = 4294967295 ∧
    (AirDensity (toUnsigned (-1)) : Except InvalidArgument F) = .ok 0.94 ∧
    (∀ altitude : Nat, ∃ d : F, AirDensity altitude = .ok d) ∧
    (∀ (altitude : Nat) (e : InvalidArgument),
      (AirDensity altitude : Except InvalidArgument F) ≠ .error e) := by
  have h1 : toUnsigned (-1) = 4294967295 := by decide
  refine ⟨h1, ?_, AirDensity_ok, ?_⟩
  · rw [h1]
    exact AirDensity_above 4294967295 (by norm_num)
  · intro altitude e he
    obtain ⟨d, hd⟩ := AirDensity_ok (F := F) altitude
    rw [hd] at he
    cases he

/-! ## C15, C16: the divisor of the roughness formula -/

theorem terrainSwitch_of_mem {F : Type} [Field F] {c : Char}
    (hc : c ∈ ['A', 'B', 'C', 'D']) :
    (terrainSwitch c : TerrainConstants F).iZg - (terrainSwitch c : TerrainConstants F).iZc ∈
      ([249, 298, 345, 390] : List Int) := by
  simp only [List.mem_cons, List.mem_singleton, List.not_mem_nil, or_false] at hc
  rcases hc with rfl | rfl | rfl | rfl <;>
    simp [terrainSwitch, TERRAINCATEGORY_A, TERRAINCATEGORY_B, TERRAINCATEGORY_C,
      TERRAINCATEGORY_D]

theorem terrainSwitch_of_not_mem {F : Type} [Field F] {c : Char}
    (hc : c ∉ ['A', 'B', 'C', 'D']) :
    (terrainSwitch c : TerrainConstants F) = { iZ0 := 0, iZg := 0, iZc := 0, dAExponent := 0.0 } := by
  simp only [List.mem_cons, List.mem_singleton, List.not_mem_nil, or_false, not_or] at hc
  obtain ⟨hA, hB, hC, hD⟩ := hc
  simp [terrainSwitch, TERRAINCATEGORY_A, TERRAINCATEGORY_B, TERRAINCATEGORY_C,
    TERRAINCATEGORY_D, hA, hB, hC, hD]

theorem terrainSwitch_divisor_ne_zero_iff {F : Type} [Field F] (c : Char) :
    (terrainSwitch c : TerrainConstants F).iZg - (terrainSwitch c : TerrainConstants F).iZc ≠ 0 ↔
      c ∈ ['A', 'B', 'C', 'D'] := by
  constructor
  · intro hne
    by_contra hc
    rw [terrainSwitch_of_not_mem hc] at hne
    simp at hne
  · intro hc
    have hmem := terrainSwitch_of_mem (F := F) hc
    simp only [List.mem_cons, List.mem_singleton, List.not_mem_nil, or_false] at hmem
    rcases hmem with h | h | h | h <;> rw [h] <;> decide

theorem TerrainRoughnessIEEE_of_not_mem {F : Type} [Field F] [DecidableEq F]
    (pow : F → F → F) (height : Int) {c : Char} (hc : c ∉ ['A', 'B', 'C', 'D']) :
    TerrainRoughnessIEEE pow height c = .finite 1.36 := by
  have h0 : (0.0 : F) = 0 := by norm_num
  simp [TerrainRoughnessIEEE, terrainSwitch_of_not_mem hc, divDouble, powDouble, scaleDouble, h0]

/-- On a category of the table the divisor and the exponent are not zero, and the embedding
over `Double F` returns what the exact embedding returns: both leave the `pow` of a finite base
to the parameter `pow`. -/
theorem TerrainRoughnessIEEE_of_mem {F : Type} [Field F] [DecidableEq F] [CharZero F]
    (pow : F → F → F) (height : Int) {c : Char} (hc : c ∈ ['A', 'B', 'C', 'D']) :
    TerrainRoughnessIEEE pow height c = .finite (TerrainRoughness pow height c) := by
  simp only [List.mem_cons, List.mem_singleton, List.not_mem_nil, or_false] at hc
  rcases hc with rfl | rfl | rfl | rfl
  · have he : (0.070 : F) ≠ 0 := by norm_num
    simp [TerrainRoughnessIEEE, TerrainRoughness, terrainSwitch, TERRAINCATEGORY_A,
      divDouble, powDouble, scaleDouble, he]
  · have he : (0.095 : F) ≠ 0 := by norm_num
    simp [TerrainRoughnessIEEE, TerrainRoughness, terrainSwitch, TERRAINCATEGORY_A,
      TERRAINCATEGORY_B, divDouble, powDouble, scaleDouble, he]
  · have he : (0.120 : F) ≠ 0 := by norm_num
    simp [TerrainRoughnessIEEE, TerrainRoughness, terrainSwitch, TERRAINCATEGORY_A,
      TERRAINCATEGORY_B, TERRAINCATEGORY_C, divDouble, powDouble, scaleDouble, he]
  · have he : (0.150 : F) ≠ 0 := by norm_num
    simp [TerrainRoughnessIEEE, TerrainRoughness, terrainSwitch, TERRAINCATEGORY_A,
      TERRAINCATEGORY_B, TERRAINCATEGORY_C, TERRAINCATEGORY_D, divDouble, powDouble,
      scaleDouble, he]

/-- C15 (counterexample): the code E is not one of A, B, C, D; at height 12 the quotient
(12 − 0)/(0 − 0) is not finite, and yet `TerrainRoughness` returns the finite roughness factor
1.36, because the exponent stays at its default 0.0 and `pow(x, 0.0)` is 1 for every x. -/
theorem TerrainRoughness_unrecognized_returns_finite :
    'E' ∉ ['A', 'B', 'C', 'D'] ∧
    divDouble (((12 - 0 : Int) : ℝ)) (((0 - 0 : Int) : ℝ)) = Double.notFinite ∧
    TerrainRoughnessIEEE Real.rpow 12 'E' = Double.finite 1.36 ∧
    ¬ (TerrainRoughnessIEEE Real.rpow 12 'E' = Double.notFinite) := by
  have hE : 'E' ∉ ['A', 'B', 'C', 'D'] := by decide
  have h := TerrainRoughnessIEEE_of_not_mem Real.rpow 12 hE
  refine ⟨hE, by simp [divDouble], h, ?_⟩
  rw [h]
  intro hcontra
  cases hcontra

/-- C15 (amended): for every category code c, the divisor Zg − Zc used by
`TerrainRoughness height c` is non-zero if and only if c is one of A, B, C, D. For every other
code the four constants all stay at their zero defaults, so the function divides (height − 0)
by (0 − 0), a quotient that is not finite, and raises it to the exponent 0.0: the value
returned is 1.36 × pow(quotient, 0.0), the finite number 1.36. -/
theorem TerrainRoughness_divisor_and_default {F : Type} [Field F] [DecidableEq F]
    (pow : F → F → F) (height : Int) (c : Char) :
    ((terrainSwitch c : TerrainConstants F).iZg - (terrainSwitch c : TerrainConstants F).iZc ≠ 0
      ↔ c ∈ ['A', 'B', 'C', 'D']) ∧
    (c ∉ ['A', 'B', 'C', 'D'] →
      (terrainSwitch c : TerrainConstants F) =
        { iZ0 := 0, iZg := 0, iZc := 0, dAExponent := 0.0 } ∧
      divDouble (((height - 0 : Int) : F)) (((0 - 0 : Int) : F)) = Double.notFinite ∧
      TerrainRoughnessIEEE pow height c =
        scaleDouble 1.36 (powDouble pow Double.notFinite 0.0) ∧
      TerrainRoughnessIEEE pow height c = Double.finite 1.36) := by
  refine ⟨terrainSwitch_divisor_ne_zero_iff c, ?_⟩
  intro hc
  have h0 : (0.0 : F) = 0 := by norm_num
  refine ⟨terrainSwitch_of_not_mem hc, by simp [divDouble], ?_,
    TerrainRoughnessIEEE_of_not_mem pow height hc⟩
  rw [TerrainRoughnessIEEE_of_not_mem pow height hc]
  simp [powDouble, scaleDouble, h0]

/-- Witness of the amended C15 over the reals: for the code Z at height 12 the constants are
the zero defaults and the value returned is the finite 1.36. -/
theorem TerrainRoughness_divisor_and_default_witness :
    (terrainSwitch 'Z' : TerrainConstants ℝ) =
      { iZ0 := 0, iZg := 0, iZc := 0, dAExponent := 0.0 } ∧
    TerrainRoughnessIEEE Real.rpow 12 'Z' = Double.finite 1.36 :=
  ⟨((TerrainRoughness_divisor_and_default Real.rpow 12 'Z').2 (by decide)).1,
   ((TerrainRoughness_divisor_and_default Real.rpow 12 'Z').2 (by decide)).2.2.2⟩

/-- C16: whenever `PeakWindSpeedPressure` returns a value r (does not raise), the category it
was given, which is the one `PeakWindSpeed` hands to `TerrainRoughness`, is one of A, B, C, D;
the divisor Zg − Zc of that call is one of 249, 298, 345, 390 and so is not zero; and r is
0.5 × density × pow(1.4 × BasicWindSpeed × TerrainRoughness(height, category) × topo, 2). -/
theorem PeakWindSpeedPressure_ok_divisor {F : Type} [Field F] (log : F → F)
    (pow : F → F → F) (altitude : Nat) (v : Int) (p : F) (height : Int) (category : Char)
    (topo r : F)
    (hok : PeakWindSpeedPressure log pow altitude v p height category topo = .ok r) :
    category ∈ ['A', 'B', 'C', 'D'] ∧
    (terrainSwitch category : TerrainConstants F).iZg -
      (terrainSwitch category : TerrainConstants F).iZc ∈ ([249, 298, 345, 390] : List Int) ∧
    (terrainSwitch category : TerrainConstants F).iZg -
      (terrainSwitch category : TerrainConstants F).iZc ≠ 0 ∧
    ∃ d : F, AirDensity altitude = .ok d ∧
      r = (1.0 / 2.0) * d *
        pow ((1.4 * BasicWindSpeed log pow v p) * TerrainRoughness pow height category * topo)
          2.0 := by
  have hnot : ¬ (v ∉ BASICWINDSPEED ∨ category ∉ TERRAINCATEGORIES) := by
    intro hbad
    obtain ⟨e, he⟩ :=
      (PeakWindSpeedPressure_error_iff log pow altitude v p height category topo).2 hbad
    rw [hok] at he
    cases he
  have hv : v ∈ BASICWINDSPEED := by
    by_contra h
    exact hnot (Or.inl h)
  have hc : category ∈ TERRAINCATEGORIES := by
    by_contra h
    exact hnot (Or.inr h)
  have hc' : category ∈ ['A', 'B', 'C', 'D'] := hc
  obtain ⟨d, hd⟩ := AirDensity_ok (F := F) altitude
  refine ⟨hc', terrainSwitch_of_mem hc', (terrainSwitch_divisor_ne_zero_iff category).2 hc',
    d, hd, ?_⟩
  rw [PeakWindSpeedPressure_of_valid log pow altitude p height topo hv hc hd] at hok
  exact (Except.ok.inj hok).symm

/-- Witness of C16 at the unit test's input over the reals: the call returns, the category is
A and the divisor is 250 − 1 = 249. -/
theorem PeakWindSpeedPressure_ok_divisor_witness :
    (∃ r : ℝ, PeakWindSpeedPressure Real.log Real.rpow 1500 28 0.02 12 'A' 1.0 = .ok r) ∧
    (terrainSwitch 'A' : TerrainConstants ℝ).iZg - (terrainSwitch 'A' : TerrainConstants ℝ).iZc ∈
      ([249, 298, 345, 390] : List Int) ∧
    (terrainSwitch 'A' : TerrainConstants ℝ).iZg - (terrainSwitch 'A' : TerrainConstants ℝ).iZc
      = 249 := by
  obtain ⟨d, hd⟩ := AirDensity_ok (F := ℝ) 1500
  have hok := PeakWindSpeedPressure_of_valid Real.log Real.rpow 1500 0.02 12 1.0
    (show (28 : Int) ∈ BASICWINDSPEED by decide) (show 'A' ∈ TERRAINCATEGORIES by decide) hd
  exact ⟨⟨_, hok⟩,
    (PeakWindSpeedPressure_ok_divisor Real.log Real.rpow 1500 28 0.02 12 'A' 1.0 _ hok).2.1,
    by simp [terrainSwitch, TERRAINCATEGORY_A]⟩

/-! ## C17, C18: the domains of the logarithms and of the power -/

/-- C17: for every real probability p, the two logarithm arguments that `BasicWindSpeed`
evaluates, 1 − p and −1 × ln(1 − p), are both strictly positive if and only if 0 < p < 1;
`BasicWindSpeed` makes no test of p: for every p it is the same expression in those two
logarithms. -/
theorem BasicWindSpeed_log_arguments_positive_iff (v : Int) (p : ℝ) :
    ((0 < 1 - p ∧ 0 < -1 * Real.log (1 - p)) ↔ (0 < p ∧ p < 1)) ∧
    BasicWindSpeed Real.log Real.rpow v p =
      Real.rpow ((1 - 0.2 * Real.log (-1 * Real.log (1 - p))) /
        (1 - 0.2 * Real.log (-1 * Real.log 0.98))) 0.5 * (v : ℝ) := by
  refine ⟨?_, by simp only [BasicWindSpeed]⟩
  constructor
  · rintro ⟨h1, h2⟩
    have hlog : Real.log (1 - p) < 0 := by linarith
    have hlt : 1 - p < 1 := (Real.log_neg_iff h1).1 hlog
    exact ⟨by linarith, by linarith⟩
  · rintro ⟨h0, h1⟩
    obtain ⟨ha, hb⟩ := neg_log_one_sub_pos h0 h1
    exact ⟨ha, by linarith⟩

theorem TerrainRoughness_eq_pow_base {F : Type} [Field F] (pow : F → F → F) (height : Int)
    (c : Char) :
    TerrainRoughness pow height c =
      1.36 * pow (roughnessBase height c) (terrainSwitch c : TerrainConstants F).dAExponent := by
  simp only [TerrainRoughness, roughnessBase]

theorem roughnessBase_rows (height : Int) :
    (roughnessBase height 'A' : ℝ) = (height : ℝ) / 249 ∧
    (roughnessBase height 'B' : ℝ) = (height : ℝ) / 298 ∧
    (roughnessBase height 'C' : ℝ) = ((height : ℝ) - 3) / 345 ∧
    (roughnessBase height 'D' : ℝ) = ((height : ℝ) - 5) / 390 := by
  refine ⟨?_, ?_, ?_, ?_⟩ <;>
    simp [roughnessBase, terrainSwitch, TERRAINCATEGORY_A, TERRAINCATEGORY_B,
      TERRAINCATEGORY_C, TERRAINCATEGORY_D]

/-- C18 (counterexample): in category A the height 1 does not exceed Zc = 1, and yet the base
(1 − 0)/(250 − 1) of the power is strictly positive and the roughness factor is a positive
real. -/
theorem roughnessBase_positive_at_Zc :
    ¬ ((terrainSwitch 'A' : TerrainConstants ℝ).iZc < 1) ∧
    (0 : ℝ) < roughnessBase 1 'A' ∧
    0 < TerrainRoughness Real.rpow 1 'A' := by
  have hb : (roughnessBase 1 'A' : ℝ) = 1 / 249 := by
    simp [roughnessBase, terrainSwitch, TERRAINCATEGORY_A]
  have hpos : (0 : ℝ) < roughnessBase 1 'A' := by
    rw [hb]
    norm_num
  refine ⟨by simp [terrainSwitch, TERRAINCATEGORY_A], hpos, ?_⟩
  rw [TerrainRoughness_eq_pow_base]
  have hr : 0 < Real.rpow (roughnessBase 1 'A')
      (terrainSwitch 'A' : TerrainConstants ℝ).dAExponent := Real.rpow_pos_of_pos hpos _
  have h136 : (0 : ℝ) < 1.36 := by norm_num
  exact mul_pos h136 hr

/-- C18 (amended): for every category in A, B, C, D and every integer height, the base
(height − Z0)/(Zg − Zc) of the power in `TerrainRoughness` is strictly positive if and only if
height exceeds that category's Z0 (0, 0, 3, 5 for A, B, C, D); when it does, the roughness
factor is a positive real, and at height = Z0 the factor is 0. Every height above the
category's Zc (1, 2, 5, 10) is above Z0. -/
theorem roughnessBase_positive_iff (height : Int) (c : Char)
    (hc : c ∈ ['A', 'B', 'C', 'D']) :
    (((terrainSwitch c : TerrainConstants ℝ).iZ0, (terrainSwitch c : TerrainConstants ℝ).iZc) ∈
      ([(0, 1), (0, 2), (3, 5), (5, 10)] : List (Int × Int))) ∧
    ((0 : ℝ) < roughnessBase height c ↔ (terrainSwitch c : TerrainConstants ℝ).iZ0 < height) ∧
    ((terrainSwitch c : TerrainConstants ℝ).iZ0 < height →
      0 < TerrainRoughness Real.rpow height c) ∧
    (height = (terrainSwitch c : TerrainConstants ℝ).iZ0 →
      TerrainRoughness Real.rpow height c = 0) ∧
    ((terrainSwitch c : TerrainConstants ℝ).iZc < height →
      (terrainSwitch c : TerrainConstants ℝ).iZ0 < height) := by
  have h136 : (0 : ℝ) < 1.36 := by norm_num
  have key : ((0 : ℝ) < roughnessBase height c ↔
      (terrainSwitch c : TerrainConstants ℝ).iZ0 < height) := by
    obtain ⟨ra, rb, rc, rd⟩ := roughnessBase_rows height
    simp only [List.mem_cons, List.mem_singleton, List.not_mem_nil, or_false] at hc
    rcases hc with rfl | rfl | rfl | rfl
    · rw [ra]
      have : (terrainSwitch 'A' : TerrainConstants ℝ).iZ0 = 0 := by
        simp [terrainSwitch, TERRAINCATEGORY_A]
      rw [this]
      constructor
      · intro h
        have h' : (0 : ℝ) < (height : ℝ) := by
          have := (div_pos_iff_of_pos_right (by norm_num : (0 : ℝ) < 249)).1 h
          exact this
        exact_mod_cast h'
      · intro h
        have h' : (0 : ℝ) < (height : ℝ) := by exact_mod_cast h
        positivity
    · rw [rb]
      have : (terrainSwitch 'B' : TerrainConstants ℝ).iZ0 = 0 := by
        simp [terrainSwitch, TERRAINCATEGORY_A, TERRAINCATEGORY_B]
      rw [this]
      constructor
      · intro h
        have h' : (0 : ℝ) < (height : ℝ) :=
          (div_pos_iff_of_pos_right (by norm_num : (0 : ℝ) < 298)).1 h
        exact_mod_cast h'
      · intro h
        have h' : (0 : ℝ) < (height : ℝ) := by exact_mod_cast h
        positivity
    · rw [rc]
      have : (terrainSwitch 'C' : TerrainConstants ℝ).iZ0 = 3 := by
        simp [terrainSwitch, TERRAINCATEGORY_A, TERRAINCATEGORY_B, TERRAINCATEGORY_C]
      rw [this]
      constructor
      · intro h
        have h' : (0 : ℝ) < (height : ℝ) - 3 :=
          (div_pos_iff_of_pos_right (by norm_num : (0 : ℝ) < 345)).1 h
        have h'' : (3 : ℝ) < (height : ℝ) := by linarith
        exact_mod_cast h''
      · intro h
        have h' : (3 : ℝ) < (height : ℝ) := by exact_mod_cast h
        exact div_pos (by linarith) (by norm_num)
    · rw [rd]
      have : (terrainSwitch 'D' : TerrainConstants ℝ).iZ0 = 5 := by
        simp [terrainSwitch, TERRAINCATEGORY_A, TERRAINCATEGORY_B, TERRAINCATEGORY_C,
          TERRAINCATEGORY_D]
      rw [this]
      constructor
      · intro h
        have h' : (0 : ℝ) < (height : ℝ) - 5 :=
          (div_pos_iff_of_pos_right (by norm_num : (0 : ℝ) < 390)).1 h
        have h'' : (5 : ℝ) < (height : ℝ) := by linarith
        exact_mod_cast h''
      · intro h
        have h' : (5 : ℝ) < (height : ℝ) := by exact_mod_cast h
        exact div_pos (by linarith) (by norm_num)
  have hrows : ((terrainSwitch c : TerrainConstants ℝ).iZ0,
      (terrainSwitch c : TerrainConstants ℝ).iZc) ∈
      ([(0, 1), (0, 2), (3, 5), (5, 10)] : List (Int × Int)) := by
    simp only [List.mem_cons, List.mem_singleton, List.not_mem_nil, or_false] at hc
    rcases hc with rfl | rfl | rfl | rfl <;>
      simp [terrainSwitch, TERRAINCATEGORY_A, TERRAINCATEGORY_B, TERRAINCATEGORY_C,
        TERRAINCATEGORY_D]
  have hexp : (terrainSwitch c : TerrainConstants ℝ).dAExponent ≠ 0 := by
    simp only [List.mem_cons, List.mem_singleton, List.not_mem_nil, or_false] at hc
    rcases hc with rfl | rfl | rfl | rfl <;>
      simp [terrainSwitch, TERRAINCATEGORY_A, TERRAINCATEGORY_B, TERRAINCATEGORY_C,
        TERRAINCATEGORY_D] <;> norm_num
  refine ⟨hrows, key, ?_, ?_, ?_⟩
  · intro h
    rw [TerrainRoughness_eq_pow_base]
    exact mul_pos h136 (Real.rpow_pos_of_pos (key.2 h) _)
  · intro h
    have hbase : (roughnessBase height c : ℝ) = 0 := by
      simp [roughnessBase, h]
    rw [TerrainRoughness_eq_pow_base, hbase, Real.rpow_eq_pow, Real.zero_rpow hexp]
    simp
  · intro h
    simp only [List.mem_cons, List.mem_singleton, List.not_mem_nil, or_false,
      Prod.mk.injEq] at hrows
    rcases hrows with ⟨h0, h1⟩ | ⟨h0, h1⟩ | ⟨h0, h1⟩ | ⟨h0, h1⟩ <;> omega

/-- Witness of the amended C18 in category C at height 4, which is above Z0 = 3 but not above
Zc = 5: the base is positive and so is the roughness factor. -/
theorem roughnessBase_positive_iff_witness :
    (0 : ℝ) < roughnessBase 4 'C' ∧ 0 < TerrainRoughness Real.rpow 4 'C' ∧
    ¬ ((terrainSwitch 'C' : TerrainConstants ℝ).iZc < 4) := by
  have h := roughnessBase_positive_iff 4 'C' (by decide)
  have hz0 : (terrainSwitch 'C' : TerrainConstants ℝ).iZ0 < 4 := by
    simp [terrainSwitch, TERRAINCATEGORY_A, TERRAINCATEGORY_B, TERRAINCATEGORY_C]
  exact ⟨h.2.1.2 hz0, h.2.2.1 hz0,
    by simp [terrainSwitch, TERRAINCATEGORY_A, TERRAINCATEGORY_B, TERRAINCATEGORY_C]⟩

/-! ## C19: air density is non-increasing and bounded -/

theorem AirDensity_linear {F : Type} [LinearOrderedField F] (x : Nat) :
    (x = 0 ∧ (AirDensity x : Except InvalidArgument F) = .ok 1.20) ∨
    ((0 : F) < x ∧ (x : F) ≤ 500 ∧
      (AirDensity x : Except InvalidArgument F) = .ok (1.20 - 0.00016 * (x : F))) ∨
    ((500 : F) < x ∧ (x : F) ≤ 1000 ∧
      (AirDensity x : Except InvalidArgument F) = .ok (1.12 - 0.00012 * ((x : F) - 500))) ∨
    ((1000 : F) < x ∧ (x : F) ≤ 1500 ∧
      (AirDensity x : Except InvalidArgument F) = .ok (1.06 - 0.00012 * ((x : F) - 1000))) ∨
    ((1500 : F) < x ∧ (x : F) ≤ 2000 ∧
      (AirDensity x : Except InvalidArgument F) = .ok (1.0 - 0.00012 * ((x : F) - 1500))) ∨
    ((2000 : F) < x ∧ (AirDensity x : Except InvalidArgument F) = .ok 0.94) := by
  rcases Nat.eq_zero_or_pos x with h0 | h0
  · left
    subst h0
    exact ⟨rfl, AirDensity_zero⟩
  right
  by_cases h1 : x ≤ 500
  · left
    refine ⟨by exact_mod_cast h0, by exact_mod_cast h1, ?_⟩
    rw [AirDensity_band1 x h0 h1]
    congr 1
    simp only [bandLine]
    push_cast
    ring
  right
  have h1' : 500 < x := by omega
  by_cases h2 : x ≤ 1000
  · left
    refine ⟨by exact_mod_cast h1', by exact_mod_cast h2, ?_⟩
    rw [AirDensity_band2 x h1' h2]
    congr 1
    simp only [bandLine]
    push_cast
    ring
  right
  have h2' : 1000 < x := by omega
  by_cases h3 : x ≤ 1500
  · left
    refine ⟨by exact_mod_cast h2', by exact_mod_cast h3, ?_⟩
    rw [AirDensity_band3 x h2' h3]
    congr 1
    simp only [bandLine]
    push_cast
    ring
  right
  have h3' : 1500 < x := by omega
  by_cases h4 : x ≤ 2000
  · left
    refine ⟨by exact_mod_cast h3', by exact_mod_cast h4, ?_⟩
    rw [AirDensity_band4 x h3' h4]
    congr 1
    simp only [bandLine]
    push_cast
    ring
  right
  have h4' : 2000 < x := by omega
  exact ⟨by exact_mod_cast h4', AirDensity_above x h4'⟩

theorem AirDensity_value_cases {F : Type} [LinearOrderedField F] (x : Nat) :
    ∃ d : F, AirDensity x = .ok d ∧
      (((x : F) = 0 ∧ d = 1.20) ∨
       ((0 : F) < x ∧ (x : F) ≤ 500 ∧ d = 1.20 - 0.00016 * (x : F)) ∨
       ((500 : F) < x ∧ (x : F) ≤ 1000 ∧ d = 1.12 - 0.00012 * ((x : F) - 500)) ∨
       ((1000 : F) < x ∧ (x : F) ≤ 1500 ∧ d = 1.06 - 0.00012 * ((x : F) - 1000)) ∨
       ((1500 : F) < x ∧ (x : F) ≤ 2000 ∧ d = 1.0 - 0.00012 * ((x : F) - 1500)) ∨
       ((2000 : F) < x ∧ d = 0.94)) := by
  rcases AirDensity_linear (F := F) x with ⟨h0, h⟩ | ⟨h1, h2, h⟩ | ⟨h1, h2, h⟩ | ⟨h1, h2, h⟩ |
    ⟨h1, h2, h⟩ | ⟨h1, h⟩
  · exact ⟨_, h, Or.inl ⟨by simp [h0], rfl⟩⟩
  · exact ⟨_, h, Or.inr (Or.inl ⟨h1, h2, rfl⟩)⟩
  · exact ⟨_, h, Or.inr (Or.inr (Or.inl ⟨h1, h2, rfl⟩))⟩
  · exact ⟨_, h, Or.inr (Or.inr (Or.inr (Or.inl ⟨h1, h2, rfl⟩)))⟩
  · exact ⟨_, h, Or.inr (Or.inr (Or.inr (Or.inr (Or.inl ⟨h1, h2, rfl⟩))))⟩
  · exact ⟨_, h, Or.inr (Or.inr (Or.inr (Or.inr (Or.inr ⟨h1, rfl⟩))))⟩

theorem density_antitone_of_cases {F : Type} [LinearOrderedField F] {x y d e : F}
    (hxy : x ≤ y)
    (cx : (x = 0 ∧ d = 1.20) ∨
       (0 < x ∧ x ≤ 500 ∧ d = 1.20 - 0.00016 * x) ∨
       (500 < x ∧ x ≤ 1000 ∧ d = 1.12 - 0.00012 * (x - 500)) ∨
       (1000 < x ∧ x ≤ 1500 ∧ d = 1.06 - 0.00012 * (x - 1000)) ∨
       (1500 < x ∧ x ≤ 2000 ∧ d = 1.0 - 0.00012 * (x - 1500)) ∨
       (2000 < x ∧ d = 0.94))
    (cy : (y = 0 ∧ e = 1.20) ∨
       (0 < y ∧ y ≤ 500 ∧ e = 1.20 - 0.00016 * y) ∨
       (500 < y ∧ y ≤ 1000 ∧ e = 1.12 - 0.00012 * (y - 500)) ∨
       (1000 < y ∧ y ≤ 1500 ∧ e = 1.06 - 0.00012 * (y - 1000)) ∨
       (1500 < y ∧ y ≤ 2000 ∧ e = 1.0 - 0.00012 * (y - 1500)) ∨
       (2000 < y ∧ e = 0.94)) :
    e ≤ d := by
  rcases cx with ⟨a1, rfl⟩ | ⟨a1, a2, rfl⟩ | ⟨a1, a2, rfl⟩ | ⟨a1, a2, rfl⟩ | ⟨a1, a2, rfl⟩ |
      ⟨a1, rfl⟩ <;>
    rcases cy with ⟨b1, rfl⟩ | ⟨b1, b2, rfl⟩ | ⟨b1, b2, rfl⟩ | ⟨b1, b2, rfl⟩ | ⟨b1, b2, rfl⟩ |
      ⟨b1, rfl⟩ <;>
    linarith

theorem density_bounds_of_cases {F : Type} [LinearOrderedField F] {x d : F}
    (cx : (x = 0 ∧ d = 1.20) ∨
       (0 < x ∧ x ≤ 500 ∧ d = 1.20 - 0.00016 * x) ∨
       (500 < x ∧ x ≤ 1000 ∧ d = 1.12 - 0.00012 * (x - 500)) ∨
       (1000 < x ∧ x ≤ 1500 ∧ d = 1.06 - 0.00012 * (x - 1000)) ∨
       (1500 < x ∧ x ≤ 2000 ∧ d = 1.0 - 0.00012 * (x - 1500)) ∨
       (2000 < x ∧ d = 0.94)) :
    0.94 ≤ d ∧ d ≤ 1.20 := by
  rcases cx with ⟨a1, rfl⟩ | ⟨a1, a2, rfl⟩ | ⟨a1, a2, rfl⟩ | ⟨a1, a2, rfl⟩ | ⟨a1, a2, rfl⟩ |
      ⟨a1, rfl⟩ <;>
    constructor <;> linarith

/-- C19: `AirDensity` is non-increasing and bounded: for all altitudes a ≤ b the density
returned at b is at most the density returned at a, and for every altitude the density
returned lies between 0.94 and 1.20, so it is positive and is not the initial 0.0 of the
result variable. Exact arithmetic in any linearly ordered field. -/
theorem AirDensity_antitone_and_bounded {F : Type} [LinearOrderedField F] :
    (∀ a b : Nat, a ≤ b →
      ∃ da db : F, AirDensity a = .ok da ∧ AirDensity b = .ok db ∧ db ≤ da) ∧
    (∀ altitude : Nat,
      ∃ d : F, AirDensity altitude = .ok d ∧ 0.94 ≤ d ∧ d ≤ 1.20 ∧ 0 < d ∧ d ≠ 0.0) := by
  constructor
  · intro a b hab
    have hab' : (a : F) ≤ (b : F) := by exact_mod_cast hab
    obtain ⟨da, ha, ca⟩ := AirDensity_value_cases (F := F) a
    obtain ⟨db, hb, cb⟩ := AirDensity_value_cases (F := F) b
    refine ⟨da, db, ha, hb, ?_⟩
    exact density_antitone_of_cases hab' ca cb
  · intro altitude
    obtain ⟨d, hd, cd⟩ := AirDensity_value_cases (F := F) altitude
    have hbounds : (0.94 : F) ≤ d ∧ d ≤ 1.20 := density_bounds_of_cases cd
    have hpos : (0 : F) < d := by
      have h94 : (0 : F) < 0.94 := by norm_num
      linarith [hbounds.1]
    refine ⟨d, hd, hbounds.1, hbounds.2, hpos, ?_⟩
    have h0 : (0.0 : F) = 0 := by norm_num
    rw [h0]
    exact ne_of_gt hpos

/-- Witness of C19 over the rationals: the density at 1800 m is at most the density at 700 m,
and the density at 1800 m lies between 0.94 and 1.20. -/
theorem AirDensity_antitone_and_bounded_witness :
    (∃ da db : ℚ, AirDensity 700 = .ok da ∧ AirDensity 1800 = .ok db ∧ db ≤ da) ∧
    (∃ d : ℚ, AirDensity 1800 = .ok d ∧ 0.94 ≤ d ∧ d ≤ 1.20 ∧ 0 < d ∧ d ≠ 0.0) :=
  ⟨(AirDensity_antitone_and_bounded (F := ℚ)).1 700 1800 (by decide),
   (AirDensity_antitone_and_bounded (F := ℚ)).2 1800⟩

/-! ## C20: the basic wind speed decreases with the probability of exceedance -/

theorem Cprob_numerator_strictAnti {p q : ℝ} (hp : 0 < p) (hpq : p < q) (hq : q < 1) :
    1 - 0.2 * Real.log (-1 * Real.log (1 - q)) < 1 - 0.2 * Real.log (-1 * Real.log (1 - p)) := by
  have hp1 : p < 1 := by linarith
  obtain ⟨hpos_p, hneg_p⟩ := neg_log_one_sub_pos hp hp1
  have hpos_q : 0 < 1 - q := by linarith
  have hlog : Real.log (1 - q) < Real.log (1 - p) :=
    Real.log_lt_log hpos_q (by linarith)
  have hinner : -1 * Real.log (1 - p) < -1 * Real.log (1 - q) := by linarith
  have hinner_pos : 0 < -1 * Real.log (1 - p) := by linarith
  have houter : Real.log (-1 * Real.log (1 - p)) < Real.log (-1 * Real.log (1 - q)) :=
    Real.log_lt_log hinner_pos hinner
  linarith

theorem Cprob_numerator_ge_one {q : ℝ} (hq0 : 0 < q) (hq : q ≤ 1 / 2) :
    1 ≤ 1 - 0.2 * Real.log (-1 * Real.log (1 - q)) := by
  have hq1 : q < 1 := by linarith
  obtain ⟨hpos, hneg⟩ := neg_log_one_sub_pos hq0 hq1
  have hlow : 1 - (1 - q)⁻¹ ≤ Real.log (1 - q) := Real.one_sub_inv_le_log_of_pos hpos
  have hinv : (1 - q)⁻¹ ≤ 2 := by
    rw [inv_le_comm₀ hpos (by norm_num)]
    linarith
  have hle : -1 * Real.log (1 - q) ≤ 1 := by linarith
  have hlog : Real.log (-1 * Real.log (1 - q)) ≤ 0 :=
    Real.log_nonpos (by linarith) hle
  linarith

theorem BasicWindSpeed_lt_of_lt {v : Int} {p q : ℝ} (hv : 0 < v) (hp : 0 < p) (hpq : p < q)
    (hq : q ≤ 1 / 2) :
    BasicWindSpeed Real.log Real.rpow v q < BasicWindSpeed Real.log Real.rpow v p := by
  have hden := Cprob_denominator_gt_one
  have hden_pos : 0 < 1 - 0.2 * Real.log (-1 * Real.log 0.98) := by linarith
  have hnum := Cprob_numerator_strictAnti hp hpq (by linarith)
  have hge := Cprob_numerator_ge_one (lt_trans hp hpq) hq
  have hv' : (0 : ℝ) < (v : ℝ) := by exact_mod_cast hv
  simp only [BasicWindSpeed]
  apply mul_lt_mul_of_pos_right _ hv'
  apply Real.rpow_lt_rpow
  · exact div_nonneg (by linarith) hden_pos.le
  · exact div_lt_div_of_pos_right hnum hden_pos
  · norm_num

/-- C20: for every positive fundamentalSpeed v, `BasicWindSpeed` is strictly decreasing in the
probability on (0, 1/2]: for all reals 0 < p < q ≤ 1/2, BasicWindSpeed(v, q) <
BasicWindSpeed(v, p); in particular BasicWindSpeed(v, p) > v for 0 < p < 0.02 and
BasicWindSpeed(v, p) < v for 0.02 < p ≤ 1/2. Stated over the reals. -/
theorem BasicWindSpeed_strictly_decreasing (v : Int) (hv : 0 < v) :
    (∀ p q : ℝ, 0 < p → p < q → q ≤ 1 / 2 →
      BasicWindSpeed Real.log Real.rpow v q < BasicWindSpeed Real.log Real.rpow v p) ∧
    (∀ p : ℝ, 0 < p → p < 0.02 → (v : ℝ) < BasicWindSpeed Real.log Real.rpow v p) ∧
    (∀ p : ℝ, 0.02 < p → p ≤ 1 / 2 → BasicWindSpeed Real.log Real.rpow v p < (v : ℝ)) := by
  refine ⟨fun p q hp hpq hq => BasicWindSpeed_lt_of_lt hv hp hpq hq, ?_, ?_⟩
  · intro p hp hlt
    have h := BasicWindSpeed_lt_of_lt hv hp hlt (by norm_num)
    rwa [BasicWindSpeed_at_reference] at h
  · intro p hlt hle
    have h := BasicWindSpeed_lt_of_lt hv (by norm_num : (0 : ℝ) < 0.02) hlt hle
    rwa [BasicWindSpeed_at_reference] at h

/-- Witness of C20 at the speed 28: the speed for p = 0.01 is above the speed for p = 0.1, and
28 lies strictly between them. -/
theorem BasicWindSpeed_strictly_decreasing_witness :
    BasicWindSpeed Real.log Real.rpow 28 0.1 < BasicWindSpeed Real.log Real.rpow 28 0.01 ∧
    ((28 : Int) : ℝ) < BasicWindSpeed Real.log Real.rpow 28 0.01 ∧
    BasicWindSpeed Real.log Real.rpow 28 0.1 < ((28 : Int) : ℝ) :=
  ⟨(BasicWindSpeed_strictly_decreasing 28 (by decide)).1 0.01 0.1 (by norm_num) (by norm_num)
      (by norm_num),
   (BasicWindSpeed_strictly_decreasing 28 (by decide)).2.1 0.01 (by norm_num) (by norm_num),
   (BasicWindSpeed_strictly_decreasing 28 (by decide)).2.2 0.1 (by norm_num) (by norm_num)⟩

end WindAction

end WindAction_library
